import Mathlib

/-!
Verification of the `self_deploy` classification-and-synthesis engine.

Shallow embedding of:
  * `src/self_deploy/tech_detector.py`   (the Classifier, `detect_tech`)
  * `src/self_deploy/pipeline_generator.py` (the Pipeline Graph Builder)
  * `src/self_deploy/dockerfile_generator.py` (the Dockerfile Selector)

Python strings are Lean `String`s, Python lists are Lean `List`s, Python
dicts are association lists (`List (String × _)`, first binding wins, which
matches dict semantics because every dict we build has unique keys and
preserves insertion order).  `None` is `Option.none`.  JSON blobs are
modelled as the pair of their raw text and, when the text parses as a JSON
object, that object (`json.loads` is a stdlib collaborator, not code of
this repository; the pair records exactly what the code observes of it).
-/

namespace SelfDeploy

/-! ### Python string primitives (`in`, `.lower()`, `"sep".join`) -/

/-- Whether the char list `p` is an initial segment of `s`. -/
def startsWithL : List Char → List Char → Bool
  | [], _ => true
  | _ :: _, [] => false
  | a :: as, b :: bs => a = b && startsWithL as bs

/-- Whether the char list `p` occurs contiguously inside `s`
(Python's `p in s` on strings). -/
def occursInL (p : List Char) : List Char → Bool
  | [] => startsWithL p []
  | c :: rest => startsWithL p (c :: rest) || occursInL p rest

/-- Python `needle in hay` for strings. -/
def strHas (hay needle : String) : Bool :=
  occursInL needle.toList hay.toList

/-- Python `s.lower()` (the inputs under verification are ASCII; this maps
each character through ASCII lowercasing, character by character so that it
evaluates inside the kernel). -/
def pyLower (s : String) : String :=
  String.mk (s.toList.map Char.toLower)

/-- Python `"\n".join(lines)` (also used with `" "`). -/
def pyJoin (sep : String) : List String → String
  | [] => ""
  | [x] => x
  | x :: y :: xs => x ++ sep ++ pyJoin sep (y :: xs)

/-! ### Data model: JSON values, signal bags, project descriptors
(`project_scanner.ProjectDescriptor` and the metadata it carries). -/

/-- A JSON value, as `json.loads` would produce it.  Objects keep key order;
all objects the scanner meets have unique keys. -/
inductive JVal where
  | str (s : String)
  | num (n : Int)
  | jbool (b : Bool)
  | null
  | arr (xs : List JVal)
  | obj (kvs : List (String × JVal))

/-- One raw file content blob: the text the scanner read, together with the
result of `json.loads` on it when that succeeds with a JSON object
(`none` both for unparsable text and for files never meant to be JSON).
`json.loads` is a stdlib collaborator; the code under verification only ever
observes this pair of views of a blob. -/
structure Blob where
  text : String
  loads : Option (List (String × JVal))

/-- Python `d.get(k)` on an association-list dict (unique keys). -/
def dictGet {α : Type} (d : List (String × α)) (k : String) : Option α :=
  (d.find? (fun kv => kv.1 == k)).map (·.2)

/-- The signal bag held in `additional_metadata`: `detected_files`
(lowercase filename → relative paths), `file_contents` (lowercase filename →
content blobs) and `detected_dirs` (directory name → presence flag).
The scanner also stores `k8s_manifests` / `docker_compose_files` /
`dockerfiles` lists, which none of the code under verification reads. -/
structure Bag where
  detected_files : List (String × List String)
  file_contents : List (String × List Blob)
  detected_dirs : List (String × Bool)

def emptyBag : Bag := ⟨[], [], []⟩

/-- Embeds `project_scanner.ProjectDescriptor`. -/
structure ProjectDescriptor where
  language : Option String := none
  framework : Option String := none
  build_tool : Option String := none
  tests : List String := []
  package_manager : Option String := none
  version : Option String := none
  dockerfile_present : Bool := false
  has_k8s_manifests : Bool := false
  root_path : String := ""
  additional_metadata : Bag := emptyBag

/-- The descriptor as `scan_project` initialises it for a given signal bag
(all dataclass defaults, metadata attached). -/
def initDescriptor (bag : Bag) : ProjectDescriptor :=
  { additional_metadata := bag }

/-! ### `tech_detector.py` -/

/-- Embeds `_contains_any(contents, keywords)`. -/
def contains_any (contents : List String) (keywords : List String) : Bool :=
  contents.any (fun content => keywords.any (fun k => strHas (pyLower content) k))

/-- Embeds `_collect_package_dependencies`: lowercased keys of the four dependency
sections of every parsable blob.  (The Python code accumulates them in a
`set`; every use of the result is an existential scan, for which this
in-order list is interchangeable.) -/
def collect_dep_step (deps : List String) (blob : Blob) : List String :=
  match blob.loads with
  | none => deps  -- json.JSONDecodeError → continue
  | some data =>
      ["dependencies", "devDependencies", "peerDependencies",
        "optionalDependencies"].foldl
        (fun deps sectionName =>
          match dictGet data sectionName with
          | some (JVal.obj kvs) => deps ++ kvs.map (fun kv => pyLower kv.1)
          | _ => deps)  -- `or {}` / non-dict section → nothing added
        deps

def collect_package_dependencies (blobs : List Blob) : List String :=
  blobs.foldl collect_dep_step []

/-- Embeds `has_file(name)` : `bool(detected_files.get(name))` — present with a
non-empty path list. -/
def has_file (bag : Bag) (name : String) : Bool :=
  match dictGet bag.detected_files name with
  | some paths => !paths.isEmpty
  | none => false

/-- Embeds `get_contents(*names)`. -/
def get_contents (bag : Bag) (names : List String) : List Blob :=
  names.flatMap (fun n => (dictGet bag.file_contents n).getD [])

/-- Embeds `add_test(name)` seen as a pure step: append unless already present
(`tests_seen` is always exactly the set of entries of `result.tests`,
so membership in the list is the same test). -/
def add_test (acc : List String) (name : String) : List String :=
  if name ∈ acc then acc else acc ++ [name]

/-- Lines 64–76: the first-match-wins language / build-tool chain.
Unmatched bags keep the incoming field values. -/
def resolve_language_build (bag : Bag) (lang0 bt0 : Option String) :
    Option String × Option String :=
  if has_file bag "pom.xml" then (some "java", some "maven")
  else if has_file bag "build.gradle" || has_file bag "build.gradle.kts" then
    ((if has_file bag "build.gradle.kts" then some "kotlin" else some "java"),
      some "gradle")
  else if has_file bag "go.mod" then (some "go", bt0)
  else if has_file bag "package.json" then
    ((if has_file bag "tsconfig.json" then some "ts" else some "js"), bt0)
  else if has_file bag "pyproject.toml" || has_file bag "requirements.txt"
      || has_file bag "pipfile" then (some "python", bt0)
  else (lang0, bt0)

/-- Lines 78–97: package-manager defaults per language. -/
def resolve_package_manager_default (bag : Bag) (lang bt pm0 : Option String) :
    Option String :=
  if lang = some "java" ∨ lang = some "kotlin" then bt
  else if lang = some "go" then some "go"
  else if lang = some "js" ∨ lang = some "ts" then some "npm"
  else if lang = some "python" then
    (if has_file bag "pyproject.toml" then
      let pyproject_text :=
        pyJoin "\n" ((get_contents bag ["pyproject.toml"]).map Blob.text)
      if strHas pyproject_text "poetry" then some "poetry"
      else if strHas pyproject_text "pipenv" then some "pipenv"
      else some "pip"
    else if has_file bag "pipfile" then some "pipenv"
    else some "pip")
  else pm0

/-- Embeds `pkg_mgr.split("@", 1)[0]`. -/
def splitHeadAt (s : String) (c : Char) : String :=
  String.mk (s.toList.takeWhile (· ≠ c))

/-- Lines 135–143: the first parsable `package.json` blob with a non-empty
string `packageManager` field overrides the package manager (name before
the first `@`); blobs without one, or unparsable, are passed over. -/
def pkg_manager_of_blob (b : Blob) : Option String :=
  match b.loads with
  | none => none  -- json.JSONDecodeError → continue
  | some data =>
      match dictGet data "packageManager" with
      | some (JVal.str s) => if s ≠ "" then some (splitHeadAt s '@') else none
      | _ => none

def resolve_pkg_manager_field (blobs : List Blob) : Option String :=
  blobs.findSome? pkg_manager_of_blob

/-- Embeds `package_text_has(*keys)`: substring scan of the collected dependency
names, falling back to a raw-text scan of the `package.json` blobs. -/
def package_text_has (deps : List String) (blobs : List Blob)
    (keys : List String) : Bool :=
  deps.any (fun dep => keys.any (fun k => strHas dep k))
    || contains_any (blobs.map Blob.text) keys

/-- Framework detection (lines 99–166, the framework assignments only). -/
def resolve_framework (bag : Bag) (lang fw0 : Option String) : Option String :=
  if lang = some "java" ∨ lang = some "kotlin" then
    let cs := (get_contents bag ["pom.xml", "build.gradle", "build.gradle.kts"]).map Blob.text
    if contains_any cs ["spring-boot", "springframework", "spring.core", "spring.context"]
      then some "spring"
    else if contains_any cs ["micronaut"] then some "micronaut"
    else if contains_any cs ["quarkus"] then some "quarkus"
    else fw0
  else if lang = some "go" then
    let cs := (get_contents bag ["go.mod"]).map Blob.text
    if contains_any cs ["github.com/gin-gonic/gin", "github.com/gin-gonic"] then some "gin"
    else if contains_any cs ["github.com/labstack/echo", "github.com/labstack/echo/v4"]
      then some "echo"
    else if contains_any cs ["github.com/gofiber/fiber"] then some "fiber"
    else if contains_any cs ["github.com/go-chi/chi"] then some "chi"
    else fw0
  else if lang = some "js" ∨ lang = some "ts" then
    if fw0.isSome then fw0  -- `if not result.framework:` guard
    else
      let blobs := get_contents bag ["package.json"]
      let deps := collect_package_dependencies blobs
      if package_text_has deps blobs ["nestjs"] then some "nestjs"
      else if package_text_has deps blobs ["next"] then some "next"
      else if package_text_has deps blobs ["express"] then some "express"
      else if package_text_has deps blobs ["fastify"] then some "fastify"
      else if package_text_has deps blobs ["koa"] then some "koa"
      else if package_text_has deps blobs ["react"] then some "react"
      else if package_text_has deps blobs ["vue"] then some "vue"
      else if package_text_has deps blobs ["svelte"] then some "svelte"
      else fw0
  else if lang = some "python" then
    let cs := (get_contents bag ["pyproject.toml", "requirements.txt", "pipfile"]).map Blob.text
    if contains_any cs ["django"] then some "django"
    else if contains_any cs ["fastapi"] then some "fastapi"
    else if contains_any cs ["flask"] then some "flask"
    else if contains_any cs ["starlette"] then some "starlette"
    else fw0
  else fw0

/-- The sequence of `add_test` calls whose guard fires, in source order
(lines 109–114, 127–130, 168–179, 206–213). -/
def test_checks (bag : Bag) (lang : Option String) : List String :=
  if lang = some "java" ∨ lang = some "kotlin" then
    let cs := (get_contents bag ["pom.xml", "build.gradle", "build.gradle.kts"]).map Blob.text
    (if contains_any cs ["junit"] then ["junit"] else [])
      ++ (if contains_any cs ["testng"] then ["testng"] else [])
      ++ (if contains_any cs ["kotest"] then ["kotest"] else [])
  else if lang = some "go" then
    let cs := (get_contents bag ["go.mod"]).map Blob.text
    (if contains_any cs ["github.com/stretchr/testify", "testify"] then ["testify"] else [])
      ++ (if contains_any cs ["github.com/onsi/ginkgo", "ginkgo"] then ["ginkgo"] else [])
  else if lang = some "js" ∨ lang = some "ts" then
    let blobs := get_contents bag ["package.json"]
    let deps := collect_package_dependencies blobs
    (if package_text_has deps blobs ["jest"] then ["jest"] else [])
      ++ (if package_text_has deps blobs ["mocha"] then ["mocha"] else [])
      ++ (if package_text_has deps blobs ["vitest"] then ["vitest"] else [])
      ++ (if package_text_has deps blobs ["ava"] then ["ava"] else [])
      ++ (if package_text_has deps blobs ["tap"] then ["tap"] else [])
      ++ (if package_text_has deps blobs ["cypress"] then ["cypress"] else [])
  else if lang = some "python" then
    let cs := (get_contents bag ["pyproject.toml", "requirements.txt", "pipfile"]).map Blob.text
    (if contains_any cs ["pytest"] then ["pytest"] else [])
      ++ (if contains_any cs ["unittest", "unittest2"] then ["unittest"] else [])
      ++ (if contains_any cs ["nose", "nose2"] then ["nose"] else [])
      ++ (if contains_any cs ["tox"] then ["tox"] else [])
  else []

/-- Python truthiness of a JSON value. -/
def jvalTruthy : JVal → Bool
  | .str s => s ≠ ""
  | .num n => n ≠ 0
  | .jbool b => b
  | .null => false
  | .arr xs => !xs.isEmpty
  | .obj kvs => !kvs.isEmpty

/-- Python `str()` of the scalar JSON values the code can meet in
`engines.node` (containers are unexercised by any code path under
verification and rendered as `""`). -/
def pyStr : JVal → String
  | .str s => s
  | .num n => toString n
  | .jbool b => if b then "True" else "False"
  | .null => "None"
  | .arr _ => ""
  | .obj _ => ""

/-- Lines 181–191: first parsable blob with a truthy `engines.node` value
(the code calls `.get` on `engines`, so a non-object truthy `engines` value
would crash Python; such inputs are outside every path under verification
and modelled as "no version found"). -/
def engines_version_of_blob (b : Blob) : Option String :=
  match b.loads with
  | none => none
  | some data =>
      match dictGet data "engines" with
      | some (JVal.obj engines) =>
          match dictGet engines "node" with
          | some v => if jvalTruthy v then some (pyStr v) else none
          | none => none
      | _ => none

def resolve_engines_version (blobs : List Blob) : Option String :=
  blobs.findSome? engines_version_of_blob

/-! #### The python version regex, exactly as written.

Line 215 searches with the *raw* string `r"python[^\\n]*([0-9]+\\.[0-9]+)"`
under `re.IGNORECASE`.  Because the pattern is a raw string, `\\` is two
characters and reaches the regex engine as an escaped backslash: the
character class excludes `\` and the letter `n`/`N`, and the group is
digits, a literal backslash, one non-newline character, then digits. -/

/-- Membership in the class `[^\\n]` under `IGNORECASE`. -/
def inVClass (c : Char) : Bool := c ≠ '\\' && c.toLower ≠ 'n'

/-- Match the group `([0-9]+\\.[0-9]+)` at the head of `cs` (all three
pieces are forced, so greediness needs no backtracking here). -/
def groupAt (cs : List Char) : Option (List Char) :=
  let d1 := cs.takeWhile Char.isDigit
  let r1 := cs.drop d1.length
  if d1.isEmpty then none
  else
    match r1 with
    | '\\' :: c :: r2 =>
        if c = '\n' then none
        else
          let d2 := r2.takeWhile Char.isDigit
          if d2.isEmpty then none else some (d1 ++ '\\' :: c :: d2)
    | _ => none

/-- Greedy `[^\\n]*` with backtracking: try consuming `k` class characters,
largest first. -/
def tryStar (rest : List Char) : Nat → Option (List Char)
  | 0 => groupAt rest
  | k + 1 =>
      match groupAt (rest.drop (k + 1)) with
      | some g => some g
      | none => tryStar rest k

/-- Leftmost `re.search` of the pattern over a char list. -/
def pySearch : List Char → Option String
  | [] => none
  | c :: rest =>
      if startsWithL "python".toList ((c :: rest).map Char.toLower) then
        let tail := (c :: rest).drop 6
        match tryStar tail (tail.takeWhile inVClass).length with
        | some g => some (String.mk g)
        | none => pySearch rest
      else pySearch rest

/-- Embeds `re.search(r"python[^\\n]*([0-9]+\\.[0-9]+)", text, re.IGNORECASE)`,
returning `group(1)` on success. -/
def py_version_search (text : String) : Option String :=
  pySearch text.toList

/-- Version extraction (lines 181–193 for js/ts, 215–217 for python).
The go-version lines of the source sit after `return result` and are
unreachable; they are not part of the function's behaviour. -/
def resolve_version (bag : Bag) (lang v0 : Option String) : Option String :=
  if lang = some "js" ∨ lang = some "ts" then
    match resolve_engines_version (get_contents bag ["package.json"]) with
    | some v => some v
    | none => v0
  else if lang = some "python" then
    match py_version_search
        (pyJoin " " ((get_contents bag ["pyproject.toml", "requirements.txt",
          "pipfile"]).map Blob.text)) with
    | some v => some v
    | none => v0
  else v0

/-- Lines 219–224: directory-based last-resort test marker. -/
def dir_test_flag (bag : Bag) : Bool :=
  bag.detected_dirs.any (fun kv => strHas kv.1 "test")

/-- The whole evolution of `result.tests`: the firing `add_test` calls in
order, then the `tests-present` last resort when the list is still empty
and a test-named directory was observed. -/
def pure_add_tests (t0 : List String) (names : List String) (flag : Bool) :
    List String :=
  let t1 := names.foldl add_test t0
  if t1.isEmpty && flag then add_test t1 "tests-present" else t1

/-- Embeds `detect_tech`: the whole classifier.  The source first builds
`result = replace(descriptor, tests=list(descriptor.tests),
additional_metadata=deepcopy(...))` — a fresh value — then assigns fields
in order; the package-manager default (lines 78–97) and the
`packageManager` override inside the js/ts branch (lines 135–143) are
composed here in that same order. -/
def detect_tech (d : ProjectDescriptor) : ProjectDescriptor :=
  let bag := d.additional_metadata
  let lb := resolve_language_build bag d.language d.build_tool
  let lang := lb.1
  let bt := lb.2
  let pmDefault := resolve_package_manager_default bag lang bt d.package_manager
  let pm :=
    if lang = some "js" ∨ lang = some "ts" then
      match resolve_pkg_manager_field (get_contents bag ["package.json"]) with
      | some p => some p
      | none => pmDefault
    else pmDefault
  let fw := resolve_framework bag lang d.framework
  let tests := pure_add_tests d.tests (test_checks bag lang) (dir_test_flag bag)
  let ver := resolve_version bag lang d.version
  { d with
      language := lang
      build_tool := bt
      package_manager := pm
      framework := fw
      tests := tests
      version := ver }

/-- Embeds `classify(signal_bag)` as the spec names it: run the classifier on the
descriptor the scanner would hand over for this bag. -/
def classify (bag : Bag) : ProjectDescriptor :=
  detect_tech (initDescriptor bag)

/-! ### `pipeline_generator.py` -/

def STAGES : List String :=
  ["prepare", "lint", "test", "sonar", "build", "package",
    "docker_build", "push", "deploy_staging", "deploy_prod"]

/-- Embeds `select_gitlab_template`. -/
def select_gitlab_template (d : ProjectDescriptor) : String :=
  let language := pyLower (d.language.getD "")
  let build_tool := pyLower (d.build_tool.getD "")
  if language = "java" ∨ language = "kotlin" then
    if build_tool = "maven" then "gitlab/java-maven.yml.j2"
    else "gitlab/java-gradle.yml.j2"
  else if language = "go" then "gitlab/go.yml.j2"
  else if language = "js" ∨ language = "ts" then "gitlab/node.yml.j2"
  else if language = "python" then "gitlab/python.yml.j2"
  else "gitlab/generic.yml.j2"

/-- Embeds `_base_image`. -/
def base_image (d : ProjectDescriptor) : String :=
  let language := pyLower (d.language.getD "")
  let build_tool := pyLower (d.build_tool.getD "")
  if language = "java" ∨ language = "kotlin" then
    if build_tool = "gradle" then "gradle:8-jdk17"
    else "maven:3.9-eclipse-temurin-17"
  else if language = "go" then "golang:1.22"
  else if language = "js" ∨ language = "ts" then "node:20"
  else if language = "python" then "python:3.12"
  else "alpine:3.19"

/-- Embeds `_cache_paths`. -/
def cache_paths (d : ProjectDescriptor) : List String :=
  let language := pyLower (d.language.getD "")
  let build_tool := pyLower (d.build_tool.getD "")
  (if build_tool = "maven" then [".m2/repository"] else [])
    ++ (if build_tool = "gradle" then [".gradle"] else [])
    ++ (if language = "js" ∨ language = "ts" then ["node_modules", ".npm"] else [])
    ++ (if language = "python" then [".cache/pip"] else [])
    ++ (if language = "go" then ["go/pkg/mod"] else [])

/-- The six per-stage script sets `_language_scripts` returns (the Python
dict always has exactly these six keys). -/
structure LanguageScripts where
  prepare : List String
  lint : List String
  test : List String
  sonar : List String
  build : List String
  package : List String

/-- Embeds `_language_scripts`. -/
def language_scripts (d : ProjectDescriptor) : LanguageScripts :=
  let language := pyLower (d.language.getD "")
  let build_tool := pyLower (d.build_tool.getD "")
  if language = "java" ∨ language = "kotlin" then
    if build_tool = "gradle" then
      { prepare := ["./gradlew --no-daemon --version"]
        lint := ["./gradlew --no-daemon check"]
        test := ["./gradlew --no-daemon test"]
        sonar := ["./gradlew --no-daemon sonarqube -Dsonar.host.url=$SONAR_HOST_URL -Dsonar.login=$SONAR_TOKEN"]
        build := ["./gradlew --no-daemon build -x test"]
        package := ["./gradlew --no-daemon assemble -x test"] }
    else
      { prepare := ["mvn -B dependency:go-offline"]
        lint := ["mvn -B -DskipTests verify"]
        test := ["mvn -B test"]
        sonar := ["mvn -B sonar:sonar -Dsonar.host.url=$SONAR_HOST_URL -Dsonar.login=$SONAR_TOKEN"]
        build := ["mvn -B package -DskipTests"]
        package := ["mvn -B package -DskipTests"] }
  else if language = "go" then
    { prepare := ["go mod download"]
      lint := ["go vet ./..."]
      test := ["go test ./..."]
      sonar := ["echo \"Run SonarQube scanner for Go\""]
      build := ["go build -o app ./..."]
      package := ["tar -czf app.tar.gz app"] }
  else if language = "js" ∨ language = "ts" then
    -- `pkg_manager = "npm"` is a local constant in the source: the
    -- descriptor's package_manager field is not consulted here.
    { prepare := ["npm ci"]
      lint := ["npm run lint"]
      test := ["npm test -- --ci --runInBand"]
      sonar := ["echo \"Run SonarQube scanner for Node.js\""]
      build := ["npm run build"]
      package := ["tar -czf app.tgz dist"] }
  else if language = "python" then
    { prepare := ["python -m pip install --upgrade pip", "pip install -r requirements.txt"]
      lint := ["flake8 . || true"]
      test := ["pytest"]
      sonar := ["echo \"Run SonarQube scanner for Python\""]
      build := ["python -m pip install build && python -m build || true"]
      package := ["ls dist || true"] }
  else
    { prepare := ["echo \"Prepare stage placeholder\""]
      lint := ["echo \"Lint stage placeholder\""]
      test := ["echo \"Test stage placeholder\""]
      sonar := ["echo \"Sonar stage placeholder\""]
      build := ["echo \"Build stage placeholder\""]
      package := ["echo \"Package stage placeholder\""] }

/-- Embeds `_deploy_rules`: every rule the builder emits is an `{"if": ...}` dict,
so a rule is modelled by its predicate string. -/
def deploy_rules (target : String) : List String :=
  if target = "staging" then ["$CI_COMMIT_BRANCH == \"develop\""]
  else ["$CI_COMMIT_BRANCH == \"main\"", "$CI_COMMIT_TAG"]

/-- The `ci_context` override mapping: the recognized optional keys
(spec §6); an absent key means the stated default applies. -/
structure CIContext where
  sonar_host : Option String := none
  sonar_token : Option String := none
  docker_image : Option String := none
  docker_tag : Option String := none
  registry : Option String := none
  base_image : Option String := none
  before_script : Option (List String) := none

/-- The `ci` dict assembled at lines 175–185. -/
structure CIVars where
  sonar_host : String
  sonar_token : String
  docker_image : String
  docker_tag : String
  docker_image_full : String
  registry : String

def ciVars (ctx : CIContext) : CIVars :=
  let docker_image := ctx.docker_image.getD "$CI_REGISTRY_IMAGE"
  let docker_tag := ctx.docker_tag.getD "$\x7bCI_COMMIT_SHORT_SHA:-latest\x7d"
  { sonar_host := ctx.sonar_host.getD "http://sonarqube:9000"
    sonar_token := ctx.sonar_token.getD "$SONAR_TOKEN"
    docker_image := docker_image
    docker_tag := docker_tag
    docker_image_full := docker_image ++ ":" ++ docker_tag
    registry := ctx.registry.getD "$CI_REGISTRY" }

/-- One job record, as `add_job` stores it. -/
structure Job where
  stage : String
  script : List String
  needs : List String
  artifacts : List String
  vars : List (String × String)  -- the source's "variables" mapping
  image : Option String
  rules : List String
  services : List String
  cache_paths : List String

/-- Embeds `add_job`'s body: build the record, blanking caches for the
containerised and deploy stages. -/
def add_job (caches : List String) (stage : String) (script : List String)
    (needs : List String) (artifacts : List String)
    (vars : List (String × String)) (image : Option String)
    (rules : List String) (services : List String) : Job :=
  { stage := stage
    script := script
    needs := needs
    artifacts := artifacts
    vars := vars
    image := image
    rules := rules
    services := services
    cache_paths :=
      if stage ∈ ["docker_build", "push", "deploy_staging", "deploy_prod"]
      then [] else caches }

/-- The job graph `generate_gitlab_ci` assembles (lines 194–295), in
`add_job` call order.  `jobs` is a Python dict keyed by distinct names, so
an insertion-ordered association list is its exact image. -/
def build_jobs (d : ProjectDescriptor) (ctx : CIContext) : List (String × Job) :=
  let caches := cache_paths d
  let ci := ciVars ctx
  let scripts := language_scripts d
  let language := pyLower (d.language.getD "")
  let build_tool := pyLower (d.build_tool.getD "")
  let package_artifacts :=
    if language = "java" ∨ language = "kotlin" then
      if build_tool = "maven" then ["target/*.jar"] else ["build/libs/*.jar"]
    else if language = "go" then ["app", "app.tar.gz"]
    else if language = "js" ∨ language = "ts" then ["app.tgz", "dist/"]
    else if language = "python" then ["dist/"]
    else []
  let build_artifacts :=
    if language = "java" ∨ language = "kotlin" then
      if build_tool = "maven" then ["target/*.jar"] else ["build/libs/*.jar"]
    else if language = "go" then ["app"]
    else if language = "js" ∨ language = "ts" then ["dist/"]
    else if language = "python" then ["dist/"]
    else []
  let has_integration := d.additional_metadata.detected_dirs.any
    (fun kv => strHas kv.1 "integration" || strHas kv.1 "e2e")
  let docker_login :=
    "echo $CI_JOB_TOKEN | docker login -u $CI_REGISTRY_USER --password-stdin $CI_REGISTRY"
  [("prepare", add_job caches "prepare" scripts.prepare [] [] [] none [] []),
    ("lint", add_job caches "lint" scripts.lint ["prepare"] [] [] none [] []),
    ("test", add_job caches "test" scripts.test ["lint"] [] [] none [] [])]
  ++ (if has_integration then
        [("integration_test",
          add_job caches "test" ["echo Running integration tests..."] ["lint"]
            [] [] none [] [])]
      else [])
  ++ [("sonar", add_job caches "sonar" scripts.sonar ["test"] []
        [("SONAR_HOST_URL", ci.sonar_host), ("SONAR_TOKEN", ci.sonar_token)]
        none [] []),
    ("build", add_job caches "build" scripts.build ["test"] build_artifacts
      [] none [] []),
    ("package", add_job caches "package" scripts.package ["build"]
      package_artifacts [] none [] []),
    ("docker_build", add_job caches "docker_build"
      [docker_login,
        "docker build -t " ++ ci.docker_image_full ++ " .",
        "docker save " ++ ci.docker_image_full ++ " -o image.tar"]
      ["package"] ["image.tar"] [("DOCKER_TLS_CERTDIR", "")]
      (some "docker:24") [] ["docker:24-dind"]),
    ("push", add_job caches "push"
      [docker_login, "docker push " ++ ci.docker_image_full]
      ["docker_build"] [] [("DOCKER_TLS_CERTDIR", "")]
      (some "docker:24") [] ["docker:24-dind"]),
    ("deploy_staging", add_job caches "deploy_staging"
      ["echo Deploying to staging..."] ["push"] [] [] none
      (deploy_rules "staging") []),
    ("deploy_prod", add_job caches "deploy_prod"
      ["echo Deploying to production..."] ["push"] [] [] none
      (deploy_rules "prod") [])]

/-- The `job_defaults` dict. -/
structure JobDefaults where
  image : String
  cache_paths : List String
  before_script : List String

/-- The rendering context handed to the template backend. -/
structure Context where
  descriptor : ProjectDescriptor
  stages : List String
  ci : CIVars
  jobs : List (String × Job)
  job_defaults : JobDefaults

/-- Embeds `PipelineRenderResult`. -/
structure PipelineRenderResult where
  content : String
  template_used : String
  context : Context

/-- The per-job lines of the inline fallback (lines 320–329).  The first
element carries the leading `"\n"` of the source's `f"\n{name}:"`. -/
def job_fallback_lines (nj : String × Job) : List String :=
  ["\n" ++ nj.1 ++ ":", "  stage: " ++ nj.2.stage]
    ++ (if nj.2.needs.isEmpty then []
        else "  needs:" :: nj.2.needs.map (fun n => "    - " ++ n))
    ++ ("  script:" :: nj.2.script.map (fun l => "    - " ++ l))

/-- All `content_lines` of the inline fallback (lines 311–329). -/
def fallback_lines (ci : CIVars) (jobs : List (String × Job)) : List String :=
  "stages:" :: STAGES.map (fun s => "  - " ++ s)
    ++ ["variables:",
      "  SONAR_HOST_URL: \"" ++ ci.sonar_host ++ "\"",
      "  SONAR_TOKEN: \"" ++ ci.sonar_token ++ "\"",
      "  DOCKER_IMAGE: \"" ++ ci.docker_image ++ "\"",
      "  DOCKER_TAG: \"" ++ ci.docker_tag ++ "\"",
      "  DOCKER_IMAGE_FULL: \"" ++ ci.docker_image_full ++ "\""]
    ++ jobs.flatMap job_fallback_lines

/-- Embeds `generate_gitlab_ci`, parametrised by the external template backend
`render` (`render_template`): `none` models its "template not found"
signal (`TemplateNotFound` / the `FileNotFoundError` the adapter re-raises),
which the generator catches and converts into the inline fallback. -/
def generate_gitlab_ci (render : String → Context → Option String)
    (d : ProjectDescriptor) (ctx : CIContext) : PipelineRenderResult :=
  let template_path := select_gitlab_template d
  let ci := ciVars ctx
  let caches := cache_paths d
  let base :=
    match ctx.base_image with  -- `ci_context.get("base_image") or _base_image(...)`
    | some s => if s = "" then base_image d else s
    | none => base_image d
  let jobs := build_jobs d ctx
  let context : Context :=
    { descriptor := d
      stages := STAGES
      ci := ci
      jobs := jobs
      job_defaults :=
        { image := base, cache_paths := caches,
          before_script := ctx.before_script.getD [] } }
  match render template_path context with
  | some content =>
      { content := content, template_used := template_path, context := context }
  | none =>
      { content := pyJoin "\n" (fallback_lines ci jobs)
        template_used := "generated-inline"
        context := context }

/-- A template backend that reports "not found" for every template. -/
def noTemplate : String → Context → Option String := fun _ _ => none

/-! ### `dockerfile_generator.py`
(`_node_frontend` exists in the source but no call reaches it, as spec §9
records; it plays no part in `generate_dockerfile`.) -/

structure DockerfileRenderResult where
  content : String
  template_used : String

/-- Embeds `_java_or_kotlin`. -/
def java_or_kotlin_recipe (d : ProjectDescriptor) : DockerfileRenderResult :=
  let build_tool := pyLower (d.build_tool.getD "")
  if build_tool = "gradle" then
    { template_used := "docker/java-gradle.Dockerfile.j2"
      content := "# syntax=docker/dockerfile:1\nFROM gradle:8-jdk17 AS build\nWORKDIR /app\nCOPY . .\nRUN gradle build -x test\n\nFROM eclipse-temurin:17-jre AS runtime\nWORKDIR /app\nCOPY --from=build /app/build/libs/*.jar app.jar\nEXPOSE 8080\nENTRYPOINT [\"java\", \"-jar\", \"app.jar\"]" }
  else
    { template_used := "docker/java-maven.Dockerfile.j2"
      content := "# syntax=docker/dockerfile:1\nFROM maven:3.9-eclipse-temurin-17 AS build\nWORKDIR /app\nCOPY . .\nRUN mvn -B -DskipTests package\n\nFROM eclipse-temurin:17-jre AS runtime\nWORKDIR /app\nCOPY --from=build /app/target/*.jar app.jar\nEXPOSE 8080\nENTRYPOINT [\"java\", \"-jar\", \"app.jar\"]" }

/-- Embeds `_go`. -/
def go_recipe : DockerfileRenderResult :=
  { template_used := "docker/go.Dockerfile.j2"
    content := "# syntax=docker/dockerfile:1\nFROM golang:1.22 AS build\nWORKDIR /app\nCOPY . .\nRUN go mod download\nRUN go build -o app .\n\nFROM alpine:3.19 AS runtime\nRUN apk add --no-cache ca-certificates\nWORKDIR /app\nCOPY --from=build /app/app /usr/local/bin/app\nEXPOSE 8080\nENTRYPOINT [\"/usr/local/bin/app\"]" }

/-- Embeds `_node_backend`. -/
def node_backend_recipe : DockerfileRenderResult :=
  { template_used := "docker/node-backend.Dockerfile.j2"
    content := "# syntax=docker/dockerfile:1\nFROM node:20 AS build\nWORKDIR /app\nCOPY package*.json ./\nRUN npm ci\nCOPY . .\nRUN npm run build\n\nFROM node:20-alpine AS runtime\nWORKDIR /app\nENV NODE_ENV=production\nCOPY --from=build /app/package*.json ./\nRUN npm ci --omit=dev\nCOPY --from=build /app/dist ./dist\nEXPOSE 3000\nCMD [\"node\", \"dist/index.js\"]" }

/-- Embeds `_python` (the source's continuation line keeps its trailing
backslash and the follow-up line its four-space indent after `dedent`). -/
def python_recipe : DockerfileRenderResult :=
  { template_used := "docker/python.Dockerfile.j2"
    content := "# syntax=docker/dockerfile:1\nFROM python:3.12-slim AS base\nWORKDIR /app\nENV PYTHONDONTWRITEBYTECODE=1 PYTHONUNBUFFERED=1\n\nFROM python:3.12 AS build\nWORKDIR /app\nCOPY requirements.txt* .  # optional constraints files\nRUN python -m pip install --upgrade pip && \\\n    pip install --prefix=/install -r requirements.txt\nCOPY . .\n\nFROM base AS runtime\nWORKDIR /app\nCOPY --from=build /install /usr/local\nCOPY . .\nEXPOSE 8000\nCMD [\"python\", \"app.py\"]" }

/-- The generic single-stage fallback at the bottom of `generate_dockerfile`. -/
def generic_recipe : DockerfileRenderResult :=
  { template_used := "docker/generic"
    content := "# syntax=docker/dockerfile:1\nFROM alpine:3.19\nWORKDIR /app\nCOPY . .\nCMD [\"sh\"]" }

/-- Embeds `generate_dockerfile`. -/
def generate_dockerfile (d : ProjectDescriptor) : DockerfileRenderResult :=
  let language := pyLower (d.language.getD "")
  if language = "java" ∨ language = "kotlin" then java_or_kotlin_recipe d
  else if language = "go" then go_recipe
  else if language = "js" ∨ language = "ts" then node_backend_recipe
  else if language = "python" then python_recipe
  else generic_recipe

/-! ### An object-store view of `detect_tech`

The dataclass fields `tests` (a Python list) and `additional_metadata`
(a dict) are mutable heap objects.  To verify that `detect_tech` leaves its
input untouched — the source copies them via `list(descriptor.tests)` and
`deepcopy(...)` before calling `result.tests.append(...)` — we re-run the
classifier over an explicit store of list/dict cells: allocation and every
`append` become store operations, and non-mutation of the caller's cells is
a theorem, not a modelling assumption. -/

/-- The store: arenas for list objects and metadata objects. -/
structure PyState where
  testsCells : List (List String)
  bagCells : List Bag

/-- A descriptor whose `tests` and `additional_metadata` are references
into a `PyState`. -/
structure PyDescriptor where
  language : Option String
  framework : Option String
  build_tool : Option String
  testsRef : Nat
  package_manager : Option String
  version : Option String
  dockerfile_present : Bool
  has_k8s_manifests : Bool
  root_path : String
  metaRef : Nat

def getCell (s : PyState) (r : Nat) : List String :=
  (s.testsCells[r]?).getD []

def setCell (s : PyState) (r : Nat) (v : List String) : PyState :=
  { s with testsCells := s.testsCells.set r v }

def allocCell (s : PyState) (v : List String) : PyState × Nat :=
  ({ s with testsCells := s.testsCells ++ [v] }, s.testsCells.length)

def getBagCell (s : PyState) (r : Nat) : Bag :=
  (s.bagCells[r]?).getD emptyBag

def allocBagCell (s : PyState) (v : Bag) : PyState × Nat :=
  ({ s with bagCells := s.bagCells ++ [v] }, s.bagCells.length)

/-- Embeds `add_test` as the source performs it: an in-place append on the list
object behind `r` when the name is new. -/
def py_add_test (s : PyState) (r : Nat) (name : String) : PyState :=
  if name ∈ getCell s r then s else setCell s r (getCell s r ++ [name])

/-- The store-level image of `pure_add_tests`, appending through `r`. -/
def run_add_tests (s : PyState) (r : Nat) (names : List String) (flag : Bool) :
    PyState :=
  let s3 := names.foldl (fun st n => py_add_test st r n) s
  if (getCell s3 r).isEmpty && flag then py_add_test s3 r "tests-present" else s3

/-- Read a referenced descriptor back as a plain value. -/
def pyDescValue (s : PyState) (d : PyDescriptor) : ProjectDescriptor :=
  { language := d.language
    framework := d.framework
    build_tool := d.build_tool
    tests := getCell s d.testsRef
    package_manager := d.package_manager
    version := d.version
    dockerfile_present := d.dockerfile_present
    has_k8s_manifests := d.has_k8s_manifests
    root_path := d.root_path
    additional_metadata := getBagCell s d.metaRef }

/-- Embeds `detect_tech` with the heap made explicit: copy the input's list and
dict into fresh cells (`replace(descriptor, tests=list(...),
additional_metadata=deepcopy(...))`), then perform each firing `add_test`
as a store write on the fresh list cell. -/
def detect_tech_py (s : PyState) (d : PyDescriptor) : PyState × PyDescriptor :=
  let inTests := getCell s d.testsRef
  let bag := getBagCell s d.metaRef
  let a1 := allocCell s inTests
  let a2 := allocBagCell a1.1 bag
  let s2 := a2.1
  let tRef := a1.2
  let lb := resolve_language_build bag d.language d.build_tool
  let lang := lb.1
  let pmDefault := resolve_package_manager_default bag lang lb.2 d.package_manager
  let pm :=
    if lang = some "js" ∨ lang = some "ts" then
      match resolve_pkg_manager_field (get_contents bag ["package.json"]) with
      | some p => some p
      | none => pmDefault
    else pmDefault
  let fw := resolve_framework bag lang d.framework
  let s4 := run_add_tests s2 tRef (test_checks bag lang) (dir_test_flag bag)
  (s4,
    { language := lang
      framework := fw
      build_tool := lb.2
      testsRef := tRef
      package_manager := pm
      version := resolve_version bag lang d.version
      dockerfile_present := d.dockerfile_present
      has_k8s_manifests := d.has_k8s_manifests
      root_path := d.root_path
      metaRef := a2.2 })

/-! ### The spec's own wording of the language chain (for the refinement
claim C1).  These two definitions follow spec §4.1 steps 1–6 verbatim and
are *not* translated from the source; C1 compares the source's classifier
against them. -/

/-- Spec §4.1, language column. -/
def specChainLanguage (bag : Bag) : Option String :=
  if has_file bag "pom.xml" then some "java"
  else if has_file bag "build.gradle.kts" then some "kotlin"
  else if has_file bag "build.gradle" then some "java"
  else if has_file bag "go.mod" then some "go"
  else if has_file bag "package.json" then
    (if has_file bag "tsconfig.json" then some "ts" else some "js")
  else if has_file bag "pyproject.toml" || has_file bag "requirements.txt"
      || has_file bag "pipfile" then some "python"
  else none

/-- Spec §4.1, build-tool column (only steps 1–2 assign one). -/
def specChainBuildTool (bag : Bag) : Option String :=
  if has_file bag "pom.xml" then some "maven"
  else if has_file bag "build.gradle.kts" then some "gradle"
  else if has_file bag "build.gradle" then some "gradle"
  else none

/-! ### Concrete signal bags used by the scenario claims -/

/-- Scenario A: only `go.mod`, content `"module x\n\ngo 1.22\n"`. -/
def goBag : Bag :=
  { detected_files := [("go.mod", ["go.mod"])]
    file_contents := [("go.mod", [⟨"module x\n\ngo 1.22\n", none⟩])]
    detected_dirs := [] }

/-- A polyglot bag holding both `pom.xml` and `package.json`. -/
def pomNodeBag : Bag :=
  { detected_files := [("pom.xml", ["pom.xml"]), ("package.json", ["package.json"])]
    file_contents := []
    detected_dirs := [] }

/-- A `package.json` whose dependencies mention both jest and vitest. -/
def jestBag : Bag :=
  { detected_files := [("package.json", ["package.json"])]
    file_contents := [("package.json",
      [⟨"\x7b\"devDependencies\": \x7b\"jest\": \"29.0.0\", \"vitest\": \"1.0.0\"\x7d\x7d",
        some [("devDependencies",
          JVal.obj [("jest", JVal.str "29.0.0"), ("vitest", JVal.str "1.0.0")])]⟩])]
    detected_dirs := [] }

/-- A `package.json` whose only content blob is *unparsable* JSON but
mentions "jest" in its raw text. -/
def badBag : Bag :=
  { detected_files := [("package.json", ["package.json"])]
    file_contents := [("package.json",
      [⟨"\x7b\"devDependencies\": \x7b\"jest\": \x7d", none⟩])]
    detected_dirs := [] }

/-- The same bag with the malformed blob removed. -/
def badBagNoBlob : Bag :=
  { detected_files := [("package.json", ["package.json"])]
    file_contents := []
    detected_dirs := [] }

/-- Only `pom.xml` (a plain maven project, no contents). -/
def mavenBag : Bag :=
  { detected_files := [("pom.xml", ["pom.xml"])]
    file_contents := []
    detected_dirs := [] }

/-- Only `requirements.txt`, whose content names a python version the way
the spec's example does. -/
def pyBag : Bag :=
  { detected_files := [("requirements.txt", ["requirements.txt"])]
    file_contents := [("requirements.txt", [⟨"python 3.11", none⟩])]
    detected_dirs := [] }

/-- A `package.json` declaring `packageManager: "yarn@4.1.0"`. -/
def yarnBag : Bag :=
  { detected_files := [("package.json", ["package.json"])]
    file_contents := [("package.json",
      [⟨"\x7b\"packageManager\": \"yarn@4.1.0\"\x7d",
        some [("packageManager", JVal.str "yarn@4.1.0")]⟩])]
    detected_dirs := [] }

/-- A one-cell store and a descriptor aliasing into it, for exercising the
store-level classifier on Scenario A's signals. -/
def pyS0 : PyState := { testsCells := [[]], bagCells := [goBag] }

def pyD0 : PyDescriptor :=
  { language := none, framework := none, build_tool := none, testsRef := 0
    package_manager := none, version := none, dockerfile_present := false
    has_k8s_manifests := false, root_path := "", metaRef := 0 }

/-- The conclusion of the determinism/no-mutation contract (claim C4),
for a store `s` and a descriptor `d` referencing cells of `s`:
running `detect_tech` leaves the input's `tests` list and metadata dict
unchanged (after one run and after a second run on the resulting store);
the two runs return structurally equal descriptors, both equal to the pure
classifier of the input's value; and equal descriptors and overrides give
equal job graphs and equal rendered pipeline text. -/
def classifyRunContract (s : PyState) (d : PyDescriptor) : Prop :=
  getCell (detect_tech_py s d).1 d.testsRef = getCell s d.testsRef
  ∧ getBagCell (detect_tech_py s d).1 d.metaRef = getBagCell s d.metaRef
  ∧ getCell (detect_tech_py (detect_tech_py s d).1 d).1 d.testsRef
      = getCell s d.testsRef
  ∧ getBagCell (detect_tech_py (detect_tech_py s d).1 d).1 d.metaRef
      = getBagCell s d.metaRef
  ∧ pyDescValue (detect_tech_py s d).1 (detect_tech_py s d).2
      = pyDescValue (detect_tech_py (detect_tech_py s d).1 d).1
          (detect_tech_py (detect_tech_py s d).1 d).2
  ∧ pyDescValue (detect_tech_py s d).1 (detect_tech_py s d).2
      = detect_tech (pyDescValue s d)
  ∧ ∀ (render : String → Context → Option String) (ctx : CIContext),
      build_jobs (pyDescValue (detect_tech_py s d).1 (detect_tech_py s d).2) ctx
        = build_jobs (pyDescValue (detect_tech_py (detect_tech_py s d).1 d).1
            (detect_tech_py (detect_tech_py s d).1 d).2) ctx
      ∧ (generate_gitlab_ci render
            (pyDescValue (detect_tech_py s d).1 (detect_tech_py s d).2) ctx).content
        = (generate_gitlab_ci render
            (pyDescValue (detect_tech_py (detect_tech_py s d).1 d).1
              (detect_tech_py (detect_tech_py s d).1 d).2) ctx).content

/-- The six script sets the builder emits for js/ts, all npm-based. -/
def npmScripts : LanguageScripts :=
  { prepare := ["npm ci"]
    lint := ["npm run lint"]
    test := ["npm test -- --ci --runInBand"]
    sonar := ["echo \"Run SonarQube scanner for Node.js\""]
    build := ["npm run build"]
    package := ["tar -czf app.tgz dist"] }

/-! ### Theorems -/

theorem startsWithL_append (p r : List Char) : startsWithL p (p ++ r) = true := by
  induction p with
  | nil => rfl
  | cons a as ih => simp [startsWithL, ih]

theorem startsWithL_extend {p a : List Char} (b : List Char)
    (h : startsWithL p a = true) : startsWithL p (a ++ b) = true := by
  induction p generalizing a with
  | nil => rfl
  | cons q qs ih =>
      cases a with
      | nil => simp [startsWithL] at h
      | cons c cs =>
          simp only [startsWithL, Bool.and_eq_true, decide_eq_true_eq] at h
          simp only [List.cons_append, startsWithL, Bool.and_eq_true, decide_eq_true_eq]
          exact ⟨h.1, ih h.2⟩

theorem occursInL_of_startsWithL {p s : List Char}
    (h : startsWithL p s = true) : occursInL p s = true := by
  cases s with
  | nil => exact h
  | cons c cs => simp only [occursInL, Bool.or_eq_true]; exact Or.inl h

theorem occursInL_append_right {p b : List Char} (a : List Char)
    (h : occursInL p b = true) : occursInL p (a ++ b) = true := by
  induction a with
  | nil => simpa using h
  | cons c cs ih =>
      simp only [List.cons_append, occursInL, Bool.or_eq_true]
      exact Or.inr ih

theorem occursInL_append_left {p a : List Char} (b : List Char)
    (h : occursInL p a = true) : occursInL p (a ++ b) = true := by
  induction a with
  | nil =>
      cases p with
      | nil =>
          cases b with
          | nil => rfl
          | cons d ds => simp [occursInL, startsWithL]
      | cons q qs => simp [occursInL, startsWithL] at h
  | cons c cs ih =>
      simp only [occursInL, Bool.or_eq_true] at h
      simp only [List.cons_append, occursInL, Bool.or_eq_true]
      rcases h with h | h
      · exact Or.inl (startsWithL_extend b h)
      · exact Or.inr (ih h)

theorem occursInL_refl (p : List Char) : occursInL p p = true :=
  occursInL_of_startsWithL (by simpa using startsWithL_append p [])

theorem strHas_append_left {a p : String} (b : String)
    (h : strHas a p = true) : strHas (a ++ b) p = true := by
  unfold strHas at *
  have : (a ++ b).toList = a.toList ++ b.toList := by
    simp [String.data_append]
  rw [this]
  exact occursInL_append_left _ h

theorem strHas_append_right {b p : String} (a : String)
    (h : strHas b p = true) : strHas (a ++ b) p = true := by
  unfold strHas at *
  have : (a ++ b).toList = a.toList ++ b.toList := by
    simp [String.data_append]
  rw [this]
  exact occursInL_append_right _ h

theorem strHas_refl (p : String) : strHas p p = true :=
  occursInL_refl p.toList

/-- Any member of the joined list occurs in the join. -/
theorem strHas_pyJoin {s : String} (sep : String) {ls : List String}
    (h : s ∈ ls) : strHas (pyJoin sep ls) s = true := by
  induction ls with
  | nil => cases h
  | cons x xs ih =>
      cases xs with
      | nil =>
          rcases List.mem_singleton.mp h with rfl
          exact strHas_refl s
      | cons y ys =>
          rcases List.mem_cons.mp h with rfl | h
          · show strHas (s ++ sep ++ pyJoin sep (y :: ys)) s = true
            exact strHas_append_left _ (strHas_append_left _ (strHas_refl s))
          · show strHas (x ++ sep ++ pyJoin sep (y :: ys)) s = true
            exact strHas_append_right _ (ih h)

/-! #### Store lemmas -/

theorem getCell_setCell_self {s : PyState} {r : Nat} (v : List String)
    (h : r < s.testsCells.length) : getCell (setCell s r v) r = v := by
  simp [getCell, setCell, List.getElem?_set_eq_of_lt v h]

theorem getCell_setCell_ne {s : PyState} {q r : Nat} (v : List String)
    (h : q ≠ r) : getCell (setCell s r v) q = getCell s q := by
  simp [getCell, setCell, List.getElem?_set_ne (Ne.symm h)]

theorem py_add_test_bagCells (s : PyState) (r : Nat) (n : String) :
    (py_add_test s r n).bagCells = s.bagCells := by
  unfold py_add_test setCell
  split <;> rfl

theorem py_add_test_length (s : PyState) (r : Nat) (n : String) :
    (py_add_test s r n).testsCells.length = s.testsCells.length := by
  unfold py_add_test setCell
  split
  · rfl
  · simp

theorem getCell_py_add_test_self {s : PyState} {r : Nat} (n : String)
    (h : r < s.testsCells.length) :
    getCell (py_add_test s r n) r = add_test (getCell s r) n := by
  unfold py_add_test add_test
  split
  · rfl
  · exact getCell_setCell_self _ h

theorem getCell_py_add_test_ne {s : PyState} {q r : Nat} (n : String)
    (h : q ≠ r) : getCell (py_add_test s r n) q = getCell s q := by
  unfold py_add_test
  split
  · rfl
  · exact getCell_setCell_ne _ h

/-- Running the firing `add_test` calls through the store touches only the
result's own cell, on which it agrees with the pure fold. -/
theorem foldl_py_add_test (names : List String) (s : PyState) (r : Nat)
    (h : r < s.testsCells.length) :
    ((names.foldl (fun st n => py_add_test st r n) s).testsCells.length
        = s.testsCells.length)
    ∧ ((names.foldl (fun st n => py_add_test st r n) s).bagCells = s.bagCells)
    ∧ (getCell (names.foldl (fun st n => py_add_test st r n) s) r
        = names.foldl add_test (getCell s r))
    ∧ (∀ q, q ≠ r →
        getCell (names.foldl (fun st n => py_add_test st r n) s) q = getCell s q) := by
  induction names generalizing s with
  | nil => exact ⟨rfl, rfl, rfl, fun _ _ => rfl⟩
  | cons n ns ih =>
      have h' : r < (py_add_test s r n).testsCells.length := by
        rw [py_add_test_length]; exact h
      obtain ⟨l1, l2, l3, l4⟩ := ih (py_add_test s r n) h'
      refine ⟨?_, ?_, ?_, ?_⟩
      · simpa [py_add_test_length] using l1
      · simpa [py_add_test_bagCells] using l2
      · simpa [getCell_py_add_test_self n h] using l3
      · intro q hq
        simpa [getCell_py_add_test_ne n hq] using l4 q hq

/-- The function `run_add_tests` touches only its own cell, where it computes
`pure_add_tests`. -/
theorem run_add_tests_spec (names : List String) (flag : Bool) (s : PyState)
    (r : Nat) (h : r < s.testsCells.length) :
    ((run_add_tests s r names flag).testsCells.length = s.testsCells.length)
    ∧ ((run_add_tests s r names flag).bagCells = s.bagCells)
    ∧ (getCell (run_add_tests s r names flag) r
        = pure_add_tests (getCell s r) names flag)
    ∧ (∀ q, q ≠ r → getCell (run_add_tests s r names flag) q = getCell s q) := by
  obtain ⟨l1, l2, l3, l4⟩ := foldl_py_add_test names s r h
  have h3 : r < (names.foldl (fun st n => py_add_test st r n) s).testsCells.length := by
    rw [l1]; exact h
  simp only [run_add_tests, pure_add_tests]
  rw [l3]
  by_cases hc : ((names.foldl add_test (getCell s r)).isEmpty && flag) = true
  · simp only [if_pos hc]
    refine ⟨?_, ?_, ?_, ?_⟩
    · rw [py_add_test_length, l1]
    · rw [py_add_test_bagCells, l2]
    · rw [getCell_py_add_test_self _ h3, l3]
    · intro q hq
      rw [getCell_py_add_test_ne _ hq, l4 q hq]
  · simp only [if_neg hc]
    exact ⟨l1, l2, l3, l4⟩

/-- One run of the store-level classifier: it computes exactly the pure
`detect_tech` of the value view, leaves the input descriptor's list and
dict cells untouched, and keeps the input references valid. -/
theorem detect_tech_py_spec (s : PyState) (d : PyDescriptor)
    (ht : d.testsRef < s.testsCells.length)
    (hm : d.metaRef < s.bagCells.length) :
    pyDescValue (detect_tech_py s d).1 (detect_tech_py s d).2
        = detect_tech (pyDescValue s d)
    ∧ getCell (detect_tech_py s d).1 d.testsRef = getCell s d.testsRef
    ∧ getBagCell (detect_tech_py s d).1 d.metaRef = getBagCell s d.metaRef
    ∧ d.testsRef < (detect_tech_py s d).1.testsCells.length
    ∧ d.metaRef < (detect_tech_py s d).1.bagCells.length := by
  -- the store after the two copies
  set inT := getCell s d.testsRef with hInT
  set bag := getBagCell s d.metaRef with hBag
  set s2 := (allocBagCell (allocCell s inT).1 bag).1 with hs2
  set tR := (allocCell s inT).2 with htRdef
  have hs2t : s2.testsCells = s.testsCells ++ [inT] := rfl
  have hs2b : s2.bagCells = s.bagCells ++ [bag] := rfl
  have htR : tR = s.testsCells.length := rfl
  have hs2len : s2.testsCells.length = s.testsCells.length + 1 := by
    rw [hs2t]; simp
  have htRlt : tR < s2.testsCells.length := by rw [hs2len, htR]; omega
  have hne : d.testsRef ≠ tR := by rw [htR]; omega
  have hS2tOld : getCell s2 d.testsRef = inT := by
    unfold getCell
    rw [hs2t, List.getElem?_append_left ht]
    rfl
  have hS2tNew : getCell s2 tR = inT := by
    unfold getCell
    rw [hs2t, htR]
    simp
  set names := test_checks bag (resolve_language_build bag d.language d.build_tool).1
    with hNames
  set flag := dir_test_flag bag with hFlag
  obtain ⟨r1, r2, r3, r4⟩ := run_add_tests_spec names flag s2 tR htRlt
  set s4 := run_add_tests s2 tR names flag with hs4
  have hRun : (detect_tech_py s d).1 = s4 := rfl
  have hRes : (detect_tech_py s d).2 = {
      language := (resolve_language_build bag d.language d.build_tool).1
      framework := resolve_framework bag
        (resolve_language_build bag d.language d.build_tool).1 d.framework
      build_tool := (resolve_language_build bag d.language d.build_tool).2
      testsRef := tR
      package_manager :=
        if (resolve_language_build bag d.language d.build_tool).1 = some "js"
            ∨ (resolve_language_build bag d.language d.build_tool).1 = some "ts" then
          match resolve_pkg_manager_field (get_contents bag ["package.json"]) with
          | some p => some p
          | none => resolve_package_manager_default bag
              (resolve_language_build bag d.language d.build_tool).1
              (resolve_language_build bag d.language d.build_tool).2 d.package_manager
        else resolve_package_manager_default bag
            (resolve_language_build bag d.language d.build_tool).1
            (resolve_language_build bag d.language d.build_tool).2 d.package_manager
      version := resolve_version bag
        (resolve_language_build bag d.language d.build_tool).1 d.version
      dockerfile_present := d.dockerfile_present
      has_k8s_manifests := d.has_k8s_manifests
      root_path := d.root_path
      metaRef := (allocBagCell (allocCell s inT).1 bag).2 } := rfl
  have hBagNew : getBagCell s4 (allocBagCell (allocCell s inT).1 bag).2 = bag := by
    have hb4 : s4.bagCells = s.bagCells ++ [bag] := by rw [r2, hs2b]
    have hbr : (allocBagCell (allocCell s inT).1 bag).2 = s.bagCells.length := rfl
    unfold getBagCell
    rw [hb4, hbr]
    simp
  refine ⟨?_, ?_, ?_, ?_, ?_⟩
  · rw [hRun, hRes]
    simp only [pyDescValue, detect_tech, ProjectDescriptor.mk.injEq]
    exact ⟨trivial, trivial, trivial, by rw [r3, hS2tNew], trivial, trivial,
      trivial, trivial, trivial, hBagNew⟩
  · rw [hRun, r4 d.testsRef hne, hS2tOld, hInT]
  · have hb4 : s4.bagCells = s.bagCells ++ [bag] := by rw [r2, hs2b]
    rw [hRun]
    unfold getBagCell
    rw [hb4, List.getElem?_append_left hm]
    rfl
  · rw [hRun, r1, hs2len]; omega
  · rw [hRun, r2, hs2b]; simp; omega

/-! ### More substring lemmas (decomposition and transitivity) -/

theorem startsWithL_iff {p s : List Char} :
    startsWithL p s = true ↔ ∃ r, s = p ++ r := by
  induction p generalizing s with
  | nil => simp [startsWithL]
  | cons q qs ih =>
      cases s with
      | nil =>
          simp [startsWithL]
      | cons c cs =>
          simp only [startsWithL, Bool.and_eq_true, decide_eq_true_eq, ih,
            List.cons_append, List.cons.injEq]
          constructor
          · rintro ⟨rfl, r, rfl⟩
            exact ⟨r, rfl, rfl⟩
          · rintro ⟨r, rfl, rfl⟩
            exact ⟨rfl, r, rfl⟩

theorem occursInL_iff {p s : List Char} :
    occursInL p s = true ↔ ∃ a b, s = a ++ p ++ b := by
  induction s with
  | nil =>
      simp only [occursInL, startsWithL_iff]
      constructor
      · rintro ⟨r, hr⟩
        exact ⟨[], r, by simpa using hr⟩
      · rintro ⟨a, b, hab⟩
        rcases List.append_eq_nil.mp (List.append_eq_nil.mp hab.symm).1 with ⟨_, hp⟩
        exact ⟨b, by simp [hp, (List.append_eq_nil.mp hab.symm).2]⟩
  | cons c cs ih =>
      simp only [occursInL, Bool.or_eq_true, startsWithL_iff, ih]
      constructor
      · rintro (⟨r, hr⟩ | ⟨a, b, hab⟩)
        · exact ⟨[], r, by simpa using hr⟩
        · exact ⟨c :: a, b, by simp [hab]⟩
      · rintro ⟨a, b, hab⟩
        cases a with
        | nil =>
            exact Or.inl ⟨b, by simpa using hab⟩
        | cons a0 as =>
            rcases List.cons.injEq .. ▸ hab with h
            simp only [List.cons_append, List.cons.injEq] at hab
            exact Or.inr ⟨as, b, hab.2⟩

/-- Transitivity of the substring relation. -/
theorem strHas_trans {a b c : String} (h1 : strHas b a = true)
    (h2 : strHas c b = true) : strHas c a = true := by
  unfold strHas at *
  rcases occursInL_iff.mp h1 with ⟨x, y, hxy⟩
  rcases occursInL_iff.mp h2 with ⟨u, v, huv⟩
  refine occursInL_iff.mpr ⟨u ++ x, y ++ v, ?_⟩
  rw [huv, hxy]
  simp

/-! ### Decomposition of the tests accumulation (claim C7) -/

theorem foldl_add_test_decomp (names : List String) (t0 : List String) :
    ∃ added, names.foldl add_test t0 = t0 ++ added
      ∧ added.Nodup ∧ ∀ x ∈ added, x ∉ t0 := by
  induction names generalizing t0 with
  | nil => exact ⟨[], by simp⟩
  | cons n ns ih =>
      by_cases hn : n ∈ t0
      · rcases ih t0 with ⟨added, h1, h2, h3⟩
        refine ⟨added, ?_, h2, h3⟩
        simpa [add_test, hn] using h1
      · rcases ih (t0 ++ [n]) with ⟨added, h1, h2, h3⟩
        refine ⟨n :: added, ?_, ?_, ?_⟩
        · simpa [add_test, hn] using h1
        · refine List.nodup_cons.mpr ⟨fun hmem => ?_, h2⟩
          exact h3 n hmem (by simp)
        · intro x hx
          rcases List.mem_cons.mp hx with rfl | hx
          · exact hn
          · intro hx0
            exact h3 x hx (by simp [hx0])

theorem pure_add_tests_decomp (t0 : List String) (names : List String)
    (flag : Bool) :
    ∃ added, pure_add_tests t0 names flag = t0 ++ added
      ∧ added.Nodup ∧ ∀ x ∈ added, x ∉ t0 := by
  rcases foldl_add_test_decomp names t0 with ⟨added, h1, h2, h3⟩
  simp only [pure_add_tests]
  rw [h1]
  split
  next hcond =>
    have : t0 = [] ∧ added = [] := by
      simpa using List.append_eq_nil.mp
        (List.isEmpty_iff.mp (Bool.and_eq_true .. ▸ hcond).1)
    rcases this with ⟨rfl, rfl⟩
    exact ⟨["tests-present"], by simp [add_test]⟩
  next => exact ⟨added, rfl, h2, h3⟩

/-! ### Claim theorems -/

/-- The source's first-match chain computes exactly the spec's chain (on
the scanner's fresh descriptor, whose language and build tool start
unset). -/
theorem resolve_language_matches_spec (bag : Bag) :
    resolve_language_build bag none none
      = (specChainLanguage bag, specChainBuildTool bag) := by
  unfold resolve_language_build specChainLanguage specChainBuildTool
  by_cases h1 : has_file bag "pom.xml" = true <;>
  by_cases h2 : has_file bag "build.gradle" = true <;>
  by_cases h3 : has_file bag "build.gradle.kts" = true <;>
  by_cases h4 : has_file bag "go.mod" = true <;>
  by_cases h5 : has_file bag "package.json" = true <;>
  by_cases h6 : has_file bag "pyproject.toml" = true <;>
  by_cases h7 : has_file bag "requirements.txt" = true <;>
  by_cases h8 : has_file bag "pipfile" = true <;>
  simp [h1, h2, h3, h4, h5, h6, h7, h8]

/-- C1: language resolution is the first-match-wins priority chain of the
spec — pom.xml ⇒ java/maven, else gradle (kts ⇒ kotlin), else go.mod ⇒ go,
else package.json ⇒ ts/js by tsconfig.json, else the python markers ⇒
python, else null — and in particular a bag holding both `pom.xml` and
`package.json` classifies as java/maven, never js/ts. -/
theorem C1_language_priority_chain :
    (∀ bag : Bag, (classify bag).language = specChainLanguage bag
      ∧ (classify bag).build_tool = specChainBuildTool bag)
    ∧ (classify pomNodeBag).language = some "java"
    ∧ (classify pomNodeBag).build_tool = some "maven" := by
  refine ⟨fun bag => ?_, rfl, rfl⟩
  have h := resolve_language_matches_spec bag
  have hl : (classify bag).language = (resolve_language_build bag none none).1 := rfl
  have hb : (classify bag).build_tool = (resolve_language_build bag none none).2 := rfl
  rw [hl, hb, h]
  exact ⟨rfl, rfl⟩

/-- C5: Scenario A — a bag with only `go.mod` (content
`"module x\n\ngo 1.22\n"`) classifies as language=go, build_tool=null,
package_manager=go; the Dockerfile selector returns the Go two-stage
recipe; and the pipeline's `test` job script includes `go test ./...`. -/
theorem C5_go_scenario :
    (classify goBag).language = some "go"
    ∧ (classify goBag).build_tool = none
    ∧ (classify goBag).package_manager = some "go"
    ∧ generate_dockerfile (classify goBag) = go_recipe
    ∧ strHas go_recipe.content "FROM golang:1.22 AS build" = true
    ∧ strHas go_recipe.content "FROM alpine:3.19 AS runtime" = true
    ∧ (language_scripts (classify goBag)).test = ["go test ./..."]
    ∧ ((dictGet (build_jobs (classify goBag) {}) "test").map Job.script)
        = some ["go test ./..."] := by
  refine ⟨?_, ?_, ?_, ?_, ?_, ?_, ?_, ?_⟩ <;> rfl

/-- C6: Scenario C — the empty signal bag classifies with every resolvable
field null and `tests = []`; the generated pipeline still has all 10
stages, its six script-bearing jobs carrying echo-only placeholders; and
the Dockerfile selector falls back to the generic single-stage shell
image.  Nothing fails. -/
theorem C6_empty_bag_generic :
    (classify emptyBag).language = none
    ∧ (classify emptyBag).framework = none
    ∧ (classify emptyBag).build_tool = none
    ∧ (classify emptyBag).package_manager = none
    ∧ (classify emptyBag).version = none
    ∧ (classify emptyBag).tests = []
    ∧ (generate_gitlab_ci noTemplate (classify emptyBag) {}).context.stages = STAGES
    ∧ STAGES.length = 10
    ∧ (build_jobs (classify emptyBag) {}).map (fun nj => nj.2.stage) = STAGES
    ∧ (language_scripts (classify emptyBag)).prepare = ["echo \"Prepare stage placeholder\""]
    ∧ (language_scripts (classify emptyBag)).lint = ["echo \"Lint stage placeholder\""]
    ∧ (language_scripts (classify emptyBag)).test = ["echo \"Test stage placeholder\""]
    ∧ (language_scripts (classify emptyBag)).sonar = ["echo \"Sonar stage placeholder\""]
    ∧ (language_scripts (classify emptyBag)).build = ["echo \"Build stage placeholder\""]
    ∧ (language_scripts (classify emptyBag)).package = ["echo \"Package stage placeholder\""]
    ∧ generate_dockerfile (classify emptyBag) = generic_recipe
    ∧ strHas generic_recipe.content "FROM alpine:3.19" = true
    ∧ strHas generic_recipe.content "CMD [\"sh\"]" = true := by
  refine ⟨?_, ?_, ?_, ?_, ?_, ?_, ?_, ?_, ?_, ?_, ?_, ?_, ?_, ?_, ?_, ?_, ?_, ?_⟩
    <;> rfl

/-- C8 (the code, evaluated at the claim's own examples): version
extraction never sets a version for go — the extraction lines sit after
`return result` and cannot run — and the python regex, written with
doubled backslashes inside a raw string, demands a literal backslash
between the digit groups, so the spec's `python X.Y` contents do not
match either: `version` stays null on both failing inputs. -/
theorem C8_version_extraction_is_dead :
    (classify goBag).version = none
    ∧ (classify pyBag).language = some "python"
    ∧ (classify pyBag).version = none
    ∧ py_version_search "python 3.11" = none
    ∧ py_version_search "python 3\\.11" = some "3\\.11" := by
  refine ⟨?_, ?_, ?_, ?_, ?_⟩ <;> rfl

/-- C2: for every descriptor and CI-override mapping, the job graph has
referential integrity — every name in any job's `needs` names a job of the
same graph — and the job-name set contains the eight unconditional jobs
plus `deploy_staging` and `deploy_prod`. -/
theorem C2_graph_referential_integrity :
    ∀ (d : ProjectDescriptor) (ctx : CIContext),
      (∀ nj ∈ build_jobs d ctx, ∀ need ∈ nj.2.needs,
          need ∈ (build_jobs d ctx).map Prod.fst)
      ∧ ∀ required ∈ ["prepare", "lint", "test", "sonar", "build", "package",
          "docker_build", "push", "deploy_staging", "deploy_prod"],
          required ∈ (build_jobs d ctx).map Prod.fst := by
  intro d ctx
  by_cases h : (d.additional_metadata.detected_dirs.any
      (fun kv => strHas kv.1 "integration" || strHas kv.1 "e2e")) = true <;>
  refine ⟨?_, ?_⟩ <;>
  simp [build_jobs, h, add_job, List.forall_mem_cons]

/-- C2 witness at a concrete descriptor and override mapping. -/
theorem C2_witness :
    "deploy_prod" ∈ (build_jobs (classify goBag) {}).map Prod.fst :=
  (C2_graph_referential_integrity (classify goBag) {}).2 "deploy_prod" (by simp)

/-- C3 (amended): when the template backend reports "not found", the
generator converts it into the inline fallback (never a failure), and the
fallback text contains the stage header of every one of the 10 stages, the
variables block, and, for every constructed job, its name, its stage and
every `needs` name and script line.  (Artifact paths are *not* reproduced —
see the counterexample.) -/
theorem C3_fallback_reproduces_graph :
    ∀ (d : ProjectDescriptor) (ctx : CIContext),
      (generate_gitlab_ci noTemplate d ctx).template_used = "generated-inline"
      ∧ (∀ st ∈ STAGES,
          strHas (generate_gitlab_ci noTemplate d ctx).content ("  - " ++ st) = true
          ∧ strHas (generate_gitlab_ci noTemplate d ctx).content st = true)
      ∧ strHas (generate_gitlab_ci noTemplate d ctx).content "variables:" = true
      ∧ ∀ nj ∈ build_jobs d ctx,
          strHas (generate_gitlab_ci noTemplate d ctx).content ("\n" ++ nj.1 ++ ":") = true
          ∧ strHas (generate_gitlab_ci noTemplate d ctx).content nj.1 = true
          ∧ strHas (generate_gitlab_ci noTemplate d ctx).content ("  stage: " ++ nj.2.stage) = true
          ∧ strHas (generate_gitlab_ci noTemplate d ctx).content nj.2.stage = true
          ∧ (∀ need ∈ nj.2.needs,
              strHas (generate_gitlab_ci noTemplate d ctx).content ("    - " ++ need) = true)
          ∧ (∀ line ∈ nj.2.script,
              strHas (generate_gitlab_ci noTemplate d ctx).content ("    - " ++ line) = true) := by
  intro d ctx
  have hc : (generate_gitlab_ci noTemplate d ctx).content
      = pyJoin "\n" (fallback_lines (ciVars ctx) (build_jobs d ctx)) := rfl
  have hmem : ∀ x ∈ fallback_lines (ciVars ctx) (build_jobs d ctx),
      strHas (generate_gitlab_ci noTemplate d ctx).content x = true := by
    intro x hx
    rw [hc]
    exact strHas_pyJoin "\n" hx
  have hjobline : ∀ nj ∈ build_jobs d ctx, ∀ x ∈ job_fallback_lines nj,
      strHas (generate_gitlab_ci noTemplate d ctx).content x = true := by
    intro nj hnj x hx
    refine hmem x ?_
    unfold fallback_lines
    refine List.mem_cons_of_mem _ (List.mem_append_right _ ?_)
    exact List.mem_flatMap.mpr ⟨nj, hnj, hx⟩
  refine ⟨rfl, ?_, ?_, ?_⟩
  · intro st hst
    have hline : strHas (generate_gitlab_ci noTemplate d ctx).content ("  - " ++ st) = true := by
      refine hmem _ ?_
      unfold fallback_lines
      refine List.mem_cons_of_mem _ (List.mem_append_left _ (List.mem_append_left _ ?_))
      exact List.mem_map.mpr ⟨st, hst, rfl⟩
    exact ⟨hline, strHas_trans (strHas_append_right _ (strHas_refl st)) hline⟩
  · refine hmem _ ?_
    unfold fallback_lines
    refine List.mem_cons_of_mem _ (List.mem_append_left _ (List.mem_append_right _ ?_))
    simp
  · intro nj hnj
    have hname : strHas (generate_gitlab_ci noTemplate d ctx).content
        ("\n" ++ nj.1 ++ ":") = true := by
      refine hjobline nj hnj _ ?_
      unfold job_fallback_lines
      simp
    have hstageL : strHas (generate_gitlab_ci noTemplate d ctx).content
        ("  stage: " ++ nj.2.stage) = true := by
      refine hjobline nj hnj _ ?_
      unfold job_fallback_lines
      simp
    refine ⟨hname, ?_, hstageL, ?_, ?_, ?_⟩
    · exact strHas_trans
        (strHas_append_left ":" (strHas_append_right "\n" (strHas_refl nj.1))) hname
    · exact strHas_trans (strHas_append_right _ (strHas_refl nj.2.stage)) hstageL
    · intro need hneed
      refine hjobline nj hnj _ ?_
      unfold job_fallback_lines
      have hno : nj.2.needs.isEmpty = false := by
        cases hh : nj.2.needs with
        | nil => rw [hh] at hneed; cases hneed
        | cons a as => rfl
      refine List.mem_append_left _ (List.mem_append_right _ ?_)
      rw [if_neg (by simp [hno])]
      exact List.mem_cons_of_mem _ (List.mem_map.mpr ⟨need, hneed, rfl⟩)
    · intro line hline
      refine hjobline nj hnj _ ?_
      unfold job_fallback_lines
      refine List.mem_append_right _ ?_
      exact List.mem_cons_of_mem _ (List.mem_map.mpr ⟨line, hline, rfl⟩)

/-- C3 witness at a concrete descriptor and override mapping. -/
theorem C3_witness :
    strHas (generate_gitlab_ci noTemplate (classify goBag) {}).content
      "deploy_prod" = true :=
  ((C3_fallback_reproduces_graph (classify goBag) {}).2.1 "deploy_prod"
    (by simp [STAGES])).2

set_option maxRecDepth 6000 in
/-- C3 counterexample: the claim also promises the artifact paths of every
job in the fallback text, but the inline fallback emits only stage, needs
and script.  For a maven project the `build` job carries the artifact glob
`target/*.jar`, yet neither that glob nor any `artifacts` key occurs in the
produced text. -/
theorem C3_fallback_omits_artifacts :
    (dictGet (build_jobs (classify mavenBag) {}) "build").map Job.artifacts
        = some ["target/*.jar"]
    ∧ strHas (generate_gitlab_ci noTemplate (classify mavenBag) {}).content
        "target/*.jar" = false
    ∧ strHas (generate_gitlab_ci noTemplate (classify mavenBag) {}).content
        "artifacts" = false := by
  refine ⟨?_, ?_, ?_⟩ <;> rfl

/-- C4: classification is deterministic and side-effect-free.  Over the
explicit object store, running `detect_tech` once and then again on the
same input descriptor never writes to the input's `tests` list cell or
metadata dict cell, returns structurally equal descriptors both times
(each equal to the pure classifier of the input value), and the pipeline
builder applied to the two results yields equal job graphs and equal
rendered text. -/
theorem C4_classifier_deterministic_and_pure (s : PyState) (d : PyDescriptor)
    (ht : d.testsRef < s.testsCells.length)
    (hm : d.metaRef < s.bagCells.length) : classifyRunContract s d := by
  obtain ⟨v1, t1, b1, ht1, hm1⟩ := detect_tech_py_spec s d ht hm
  obtain ⟨v2, t2, b2, ht2, hm2⟩ :=
    detect_tech_py_spec (detect_tech_py s d).1 d ht1 hm1
  have hval : pyDescValue (detect_tech_py s d).1 d = pyDescValue s d := by
    simp [pyDescValue, t1, b1]
  have hsame : pyDescValue (detect_tech_py s d).1 (detect_tech_py s d).2
      = pyDescValue (detect_tech_py (detect_tech_py s d).1 d).1
          (detect_tech_py (detect_tech_py s d).1 d).2 := by
    rw [v1, v2, hval]
  refine ⟨t1, b1, ?_, ?_, hsame, v1, ?_⟩
  · rw [t2, t1]
  · rw [b2, b1]
  · intro render ctx
    rw [hsame]
    exact ⟨rfl, rfl⟩

/-- C4 witness: a one-cell store holding Scenario A's signal bag. -/
theorem C4_witness :
    pyD0.testsRef < pyS0.testsCells.length
    ∧ pyD0.metaRef < pyS0.bagCells.length
    ∧ classifyRunContract pyS0 pyD0 :=
  ⟨by decide, by decide,
    C4_classifier_deterministic_and_pure pyS0 pyD0 (by decide) (by decide)⟩

/-- C7: test-framework detection is additive and deduplicated — the
classifier only ever appends a block of identifiers that is duplicate-free
and disjoint from what was already recorded — and the jest+vitest
`package.json` of the spec's example yields exactly
`tests = ["jest", "vitest"]`, in detection order, with no duplicates even
though each keyword is visible both among the parsed dependency names and
in the raw text. -/
theorem C7_tests_additive_deduplicated :
    (∀ d : ProjectDescriptor, ∃ added,
        (detect_tech d).tests = d.tests ++ added
        ∧ added.Nodup
        ∧ ∀ x ∈ added, x ∉ d.tests)
    ∧ (classify jestBag).tests = ["jest", "vitest"] := by
  constructor
  · intro d
    have h : (detect_tech d).tests
        = pure_add_tests d.tests
            (test_checks d.additional_metadata
              (resolve_language_build d.additional_metadata d.language d.build_tool).1)
            (dir_test_flag d.additional_metadata) := rfl
    rw [h]
    exact pure_add_tests_decomp _ _ _
  · rfl

/-- C7 witness. -/
theorem C7_witness : (classify jestBag).tests = ["jest", "vitest"] :=
  C7_tests_additive_deduplicated.2

/-! Helper lemmas for C9: blobs whose `json.loads` fails are invisible to
every structured parsing path. -/

theorem foldl_collect_dep_filter (blobs : List Blob) : ∀ a : List String,
    blobs.foldl collect_dep_step a
      = (blobs.filter (fun b => b.loads.isSome)).foldl collect_dep_step a := by
  induction blobs with
  | nil => intro a; rfl
  | cons b bs ih =>
      intro a
      cases hb : b.loads with
      | none =>
          have hstep : collect_dep_step a b = a := by
            unfold collect_dep_step
            rw [hb]
          simp [List.filter_cons, hb, hstep, ih]
      | some v => simp [List.filter_cons, hb, ih]

theorem findSome?_skips_unparsable (f : Blob → Option String)
    (hf : ∀ b, b.loads = none → f b = none) (blobs : List Blob) :
    blobs.findSome? f
      = (blobs.filter (fun b => b.loads.isSome)).findSome? f := by
  induction blobs with
  | nil => rfl
  | cons b bs ih =>
      cases hb : b.loads with
      | none => simp [List.findSome?_cons, List.filter_cons, hb, hf b hb, ih]
      | some v =>
          simp only [List.filter_cons, hb, Option.isSome_some, if_true]
          simp only [List.findSome?_cons]
          cases f b with
          | none => exact ih
          | some r => rfl

/-- C9 (amended): an unparsable blob is skipped by every structured
(JSON-parsing) path of the classifier — dependency collection, the
`packageManager` override and the `engines.node` version — and parse
failure never surfaces; the blob's raw text does, however, still
participate in the substring-based checks (see the counterexample). -/
theorem C9_unparsable_blobs_skipped :
    ∀ blobs : List Blob,
      collect_package_dependencies blobs
          = collect_package_dependencies (blobs.filter (fun b => b.loads.isSome))
      ∧ resolve_pkg_manager_field blobs
          = resolve_pkg_manager_field (blobs.filter (fun b => b.loads.isSome))
      ∧ resolve_engines_version blobs
          = resolve_engines_version (blobs.filter (fun b => b.loads.isSome)) := by
  intro blobs
  refine ⟨foldl_collect_dep_filter blobs [], ?_, ?_⟩
  · exact findSome?_skips_unparsable pkg_manager_of_blob
      (fun b hb => by unfold pkg_manager_of_blob; rw [hb]) blobs
  · exact findSome?_skips_unparsable engines_version_of_blob
      (fun b hb => by unfold engines_version_of_blob; rw [hb]) blobs

/-- C9 witness. -/
theorem C9_witness :
    collect_package_dependencies (get_contents badBag ["package.json"])
      = collect_package_dependencies
          ((get_contents badBag ["package.json"]).filter (fun b => b.loads.isSome)) :=
  (C9_unparsable_blobs_skipped (get_contents badBag ["package.json"])).1

/-- C9 counterexample: a signal bag whose only `package.json` blob is
unparsable JSON mentioning "jest" still classifies with
`tests = ["jest"]` — the raw text of the malformed blob feeds the
substring fallback of `package_text_has` — whereas the same bag without
the blob yields `tests = []`.  The malformed blob therefore *does*
contribute to the classification result, contradicting the claim's
"contributes nothing"; only the structured parse of it is skipped. -/
theorem C9_malformed_blob_contributes :
    (classify badBag).tests = ["jest"]
    ∧ (classify badBagNoBlob).tests = []
    ∧ collect_package_dependencies (get_contents badBag ["package.json"]) = [] := by
  refine ⟨?_, ?_, ?_⟩ <;> rfl

/-- C10: for every js/ts descriptor the generated prepare/lint/test/build/
package scripts are the fixed npm commands, whatever `package_manager`
holds; concretely, a `packageManager: "yarn@4.1.0"` declaration flips the
descriptor's `package_manager` to "yarn" yet every generated command still
uses npm. -/
theorem C10_js_scripts_always_npm :
    (∀ d : ProjectDescriptor,
        d.language = some "js" ∨ d.language = some "ts" →
        language_scripts d = npmScripts)
    ∧ (classify yarnBag).language = some "js"
    ∧ (classify yarnBag).package_manager = some "yarn"
    ∧ (language_scripts (classify yarnBag)).prepare = ["npm ci"]
    ∧ (language_scripts (classify yarnBag)).lint = ["npm run lint"]
    ∧ (language_scripts (classify yarnBag)).test = ["npm test -- --ci --runInBand"]
    ∧ (language_scripts (classify yarnBag)).build = ["npm run build"]
    ∧ (language_scripts (classify yarnBag)).package = ["tar -czf app.tgz dist"] := by
  refine ⟨?_, ?_, ?_, ?_, ?_, ?_, ?_, ?_⟩
  · intro d h
    rcases h with h | h <;> (unfold language_scripts npmScripts; rw [h]) <;> rfl
  all_goals rfl

/-- C10 witness: the yarn-declaring descriptor still gets npm scripts. -/
theorem C10_witness : language_scripts (classify yarnBag) = npmScripts :=
  C10_js_scripts_always_npm.1 (classify yarnBag) (Or.inl (by rfl))

end SelfDeploy
